import Mathlib

/-!
Verification of the landmark-driven jewelry AR overlay pipeline.

The development shallowly embeds the JavaScript sources:
  * `frontend/src/services/websocket.js` (`LandmarkWebSocket`),
  * `frontend/src/App.jsx` (the `landmarks` handler and App state),
  * `frontend/src/components/AROverlay.jsx` and the model-capable
    `AROverlay` variant (identical landmark effect, plus `Earring`
    provisioning with a `modelError` flag),
  * the `JewelrySelector` descriptor list.

Numbers are embedded as rationals; JavaScript truthiness on optional
strings/objects is made explicit.  Event emission is modelled as lists of
emitted events; timers (reconnect scheduling) are recorded as data rather
than executed.
-/

namespace JewelryAR

/-- A normalized landmark point `{x, y, z}` as delivered by the tracker. -/
structure LandmarkPoint where
  x : ℚ
  y : ℚ
  z : ℚ
deriving DecidableEq

/-- Optional head-pose angles `{pitch, yaw, roll}` (radians). -/
structure FaceRotation where
  pitch : ℚ
  yaw : ℚ
  roll : ℚ
deriving DecidableEq

/-- The `landmarks` object of a frame: each anatomical entry may be absent
(`undefined`/`null` in the source), as may `face_rotation`. -/
structure Landmarks where
  left_ear : Option LandmarkPoint
  right_ear : Option LandmarkPoint
  face_rotation : Option FaceRotation
deriving DecidableEq

/-- One `LandmarkFrame` message as parsed from the stream (§3 of the data
model): `landmarks` may be `null`, `error` may be absent. -/
structure LandmarkFrame where
  timestamp : ℚ
  landmarks : Option Landmarks
  fps : ℚ
  face_detected : Bool
  error : Option String
deriving DecidableEq

/-- JavaScript truthiness of an optional string (`undefined` and `""` are
falsy, every non-empty string is truthy).  Used for `data.error` checks. -/
def strTruthy : Option String → Bool
  | none => false
  | some s => !(s == "")

/-- React state held by the `App` component that the landmark stream
updates (`App.jsx`): `landmarks`, `fps`, `faceDetected`, `backendError`. -/
structure AppState where
  landmarks : Option Landmarks
  fps : ℚ
  faceDetected : Bool
  backendError : Option String
deriving DecidableEq

/-- Initial `useState` values of `App` (`App.jsx` lines 12–18). -/
def initialAppState : AppState :=
  { landmarks := none, fps := 0, faceDetected := false, backendError := none }

/-- The `ws.on('landmarks', …)` handler of `App.jsx` (lines 33–44):
an (truthy) `error` field records the backend error and returns early;
otherwise `landmarks`, `fps`, `faceDetected` are replaced from the frame
(with JS `||` defaulting) and `backendError` is cleared. -/
def onLandmarks (s : AppState) (data : LandmarkFrame) : AppState :=
  if strTruthy data.error then
    { s with backendError := data.error }
  else
    { landmarks := data.landmarks
      fps := if data.fps = 0 then 0 else data.fps
      faceDetected := data.face_detected
      backendError := none }

/-- A three-component vector in render space; also used for Euler
rotation triples `[pitch, yaw, roll]`. -/
structure Vec3 where
  x : ℚ
  y : ℚ
  z : ℚ
deriving DecidableEq

/-- The `{width, height}` notification from the video source. -/
structure VideoSize where
  width : ℚ
  height : ℚ
deriving DecidableEq

/-- React state of the `AROverlay` component (`AROverlay.jsx` lines
42–45): ear positions, the face rotation triple, and the visibility flag. -/
structure OverlayState where
  leftEarPos : Vec3
  rightEarPos : Vec3
  faceRotation : Vec3
  isVisible : Bool
deriving DecidableEq

/-- Initial `useState` values of `AROverlay`. -/
def initialOverlayState : OverlayState :=
  { leftEarPos := ⟨0, 0, -5⟩
    rightEarPos := ⟨0, 0, -5⟩
    faceRotation := ⟨0, 0, 0⟩
    isVisible := false }

/-- The `useEffect` body of `AROverlay` (`AROverlay.jsx` lines 47–80, and
verbatim the same in the model-capable variant): bail out invisible unless
`landmarks`, `landmarks.left_ear` and `landmarks.right_ear` are all
present; otherwise become visible, convert both ears to render space using
the aspect ratio (default `16/9` without a video size), and update the
rotation only when `face_rotation` is present. -/
def overlayUpdate (s : OverlayState) (landmarks : Option Landmarks)
    (videoSize : Option VideoSize) : OverlayState :=
  match landmarks with
  | none => { s with isVisible := false }
  | some lm =>
    match lm.left_ear, lm.right_ear with
    | some leftEar, some rightEar =>
      let aspect : ℚ :=
        match videoSize with
        | some vs => vs.width / vs.height
        | none => 16 / 9
      let leftX := -(leftEar.x * 2 - 1) * aspect
      let leftY := -(leftEar.y * 2 - 1)
      let leftZ := leftEar.z * 2
      let rightX := -(rightEar.x * 2 - 1) * aspect
      let rightY := -(rightEar.y * 2 - 1)
      let rightZ := rightEar.z * 2
      let s1 := { s with
        isVisible := true
        leftEarPos := ⟨leftX, leftY, leftZ⟩
        rightEarPos := ⟨rightX, rightY, rightZ⟩ }
      match lm.face_rotation with
      | some fr => { s1 with faceRotation := ⟨fr.pitch, fr.yaw, fr.roll⟩ }
      | none => s1
    | _, _ => { s with isVisible := false }

/-- One frame through the App-to-overlay pipeline: the `landmarks` handler
updates App state, and the overlay effect reruns on the (new) `landmarks`
prop.  (When an error frame leaves `landmarks` untouched the effect input
is unchanged, and `overlayUpdate` on unchanged input is a fixed point, so
applying it unconditionally is faithful.) -/
def pipelineStep (a : AppState) (o : OverlayState) (videoSize : Option VideoSize)
    (f : LandmarkFrame) : AppState × OverlayState :=
  let a1 := onLandmarks a f
  (a1, overlayUpdate o a1.landmarks videoSize)

/-- The spec's pure coordinate transform `toRenderSpace(point, aspect)`
(§4.2), written from the spec's words, to be compared against the inline
computation in `overlayUpdate`. -/
def toRenderSpaceSpec (p : LandmarkPoint) (aspect : ℚ) : Vec3 :=
  ⟨-(p.x * 2 - 1) * aspect, -(p.y * 2 - 1), p.z * 2⟩

/-- The spec's aspect selection (§4.2/§6): the video's `width/height` once
known, `16/9` before that. -/
def aspectOf : Option VideoSize → ℚ
  | some vs => vs.width / vs.height
  | none => 16 / 9

/-! ### Rendered earring calls (the JSX emitted while visible)

`Math.PI` is a fixed numeric constant of the host; it is threaded through
as a parameter `piConst` so rotation formulas stay exact. -/

/-- Arguments of one `SimpleEarring`/`Earring` element in the JSX. -/
structure EarringCall where
  position : Vec3
  rotation : Vec3
  scale : ℚ
deriving DecidableEq

/-- The earring elements rendered by `AROverlay`'s JSX (`AROverlay.jsx`
lines 112–137): nothing unless `isVisible`; otherwise the left earring
with damped rotation `[pitch*0.5, yaw*0.5, roll]` and the mirrored right
earring with `[pitch*0.5, PI + yaw*0.5, -roll]`, both at scale `1.5`. -/
def renderEarrings (piConst : ℚ) (s : OverlayState) : List EarringCall :=
  if s.isVisible then
    [ { position := s.leftEarPos
        rotation := ⟨s.faceRotation.x * (1/2), s.faceRotation.y * (1/2),
                     s.faceRotation.z⟩
        scale := 3/2 }
    , { position := s.rightEarPos
        rotation := ⟨s.faceRotation.x * (1/2), piConst + s.faceRotation.y * (1/2),
                     -s.faceRotation.z⟩
        scale := 3/2 } ]
  else []

/-! ### Streaming client (`websocket.js`) -/

/-- Events emitted through `LandmarkWebSocket.emit`. -/
inductive WsEvent where
  | connected (status : Bool)
  | landmarks (f : LandmarkFrame)
  | errorEvent
  | maxReconnectAttemptsReached (flag : Bool)
deriving DecidableEq

/-- Value of `this.maxReconnectAttempts` (`websocket.js` line 10). -/
def maxReconnectAttempts : ℕ := 5

/-- The reconnect bookkeeping of `LandmarkWebSocket`:
`reconnectAttempts` and `reconnectDelay` (ms). -/
structure WsCounters where
  reconnectAttempts : ℕ
  reconnectDelay : ℕ
deriving DecidableEq

/-- Constructor-time values (`websocket.js` lines 9–11). -/
def initialWsCounters : WsCounters :=
  { reconnectAttempts := 0, reconnectDelay := 1000 }

/-- Result of running the `onclose` handler: the updated counters, the
events emitted (in order), and the delay of the reconnect it scheduled
via `setTimeout`, if any. -/
structure CloseResult where
  state : WsCounters
  emitted : List WsEvent
  scheduledReconnectDelay : Option ℕ
deriving DecidableEq

/-- The `ws.onopen` handler (`websocket.js` lines 21–26): reset the
attempt counter to 0 and the delay to 1000 ms, emit `connected(true)`. -/
def handleOpen (_s : WsCounters) : WsCounters × List WsEvent :=
  ({ reconnectAttempts := 0, reconnectDelay := 1000 }, [WsEvent.connected true])

/-- The `ws.onclose` handler (`websocket.js` lines 42–63): emit
`connected(false)`; if `reconnectAttempts < maxReconnectAttempts`,
increment the counter, schedule `connect()` after the current delay, and
double the delay capped at 30000 ms; otherwise emit
`maxReconnectAttemptsReached(true)` and schedule nothing. -/
def handleClose (s : WsCounters) : CloseResult :=
  if s.reconnectAttempts < maxReconnectAttempts then
    { state := { reconnectAttempts := s.reconnectAttempts + 1
                 reconnectDelay := min (s.reconnectDelay * 2) 30000 }
      emitted := [WsEvent.connected false]
      scheduledReconnectDelay := some s.reconnectDelay }
  else
    { state := s
      emitted := [WsEvent.connected false, WsEvent.maxReconnectAttemptsReached true]
      scheduledReconnectDelay := none }

/-- A raw inbound transport message: either it parses (`JSON.parse`) as a
frame, or it is malformed JSON. -/
inductive RawMsg where
  | ok (f : LandmarkFrame)
  | malformed
deriving DecidableEq

/-- The `ws.onmessage` handler (`websocket.js` lines 28–35): a parsed
frame is emitted as `landmarks`; a malformed payload is only logged via
`console.error` — no event, no state change, no close. -/
def handleMessage : RawMsg → List WsEvent
  | RawMsg.ok f => [WsEvent.landmarks f]
  | RawMsg.malformed => []

/-- Events emitted over a whole inbound message sequence (the connection
is unaffected by message handling, so the events are just concatenated). -/
def processMessages (msgs : List RawMsg) : List WsEvent :=
  (msgs.map handleMessage).flatten

/-- Full client state including whether `this.ws` is non-null. -/
structure WsClientState where
  wsOpen : Bool
  counters : WsCounters
deriving DecidableEq

/-- Method `disconnect()` (`websocket.js` lines 115–121): when a socket exists,
set `reconnectAttempts` to the maximum (to prevent auto-reconnect), close
the socket and null the reference; otherwise a no-op.  The underlying
socket's close event still fires afterwards and runs `handleClose`. -/
def disconnectClient (s : WsClientState) : WsClientState :=
  if s.wsOpen then
    { wsOpen := false
      counters := { s.counters with reconnectAttempts := maxReconnectAttempts } }
  else s

/-! ### The never-opening reconnect run (for the backoff scenario)

After `connect()`, a connection attempt is outstanding.  Each step
processes one close event of the outstanding attempt (the run in which no
attempt ever opens): a scheduled reconnect fires and calls `connect()`,
producing the next outstanding attempt; when nothing is scheduled the run
is quiescent. -/

/-- Observable totals of a never-opening run. -/
structure RunState where
  counters : WsCounters
  alive : Bool
  maxEvents : ℕ
  reconnects : ℕ
deriving DecidableEq

/-- State right after the initial `connect()`. -/
def initialRun : RunState :=
  { counters := initialWsCounters, alive := true, maxEvents := 0, reconnects := 0 }

/-- Process one close of the outstanding attempt (no-op once quiescent). -/
def closeStep (r : RunState) : RunState :=
  if r.alive then
    let c := handleClose r.counters
    match c.scheduledReconnectDelay with
    | some _ =>
      { counters := c.state, alive := true
        maxEvents := r.maxEvents +
          (c.emitted.filter (fun e => e = WsEvent.maxReconnectAttemptsReached true)).length
        reconnects := r.reconnects + 1 }
    | none =>
      { counters := c.state, alive := false
        maxEvents := r.maxEvents +
          (c.emitted.filter (fun e => e = WsEvent.maxReconnectAttemptsReached true)).length
        reconnects := r.reconnects }
  else r

/-- The run after `n` close events. -/
def runCloses (n : ℕ) : RunState := closeStep^[n] initialRun

/-! ### Object provisioning (model-capable `AROverlay` and `Earring`) -/

/-- One entry of the `JewelrySelector` list: id, name, type, color,
`modelPath` (may be absent), scale. -/
structure JewelryDescriptor where
  id : ℕ
  name : String
  type : String
  color : String
  modelPath : Option String
  scale : ℚ
deriving DecidableEq

/-- Geometry of a rendered mesh primitive. -/
inductive Geometry where
  | torus (radius : ℚ) (tube : ℚ)
  | sphere (radius : ℚ)
deriving DecidableEq

/-- A mesh together with its material color. -/
structure MeshSpec where
  geometry : Geometry
  color : String
deriving DecidableEq

/-- Meshes of `ProceduralEarring` (model-capable overlay, lines 43–70): a
torus hoop (radii `0.015*scale` and `0.003*scale`) in the given color plus
a small sphere accent (radius `0.005*scale`) in the fixed gem color. -/
def proceduralEarringMeshes (scale : ℚ) (color : String) : List MeshSpec :=
  [ { geometry := Geometry.torus (3/200 * scale) (3/1000 * scale), color := color }
  , { geometry := Geometry.sphere (1/200 * scale), color := "#FF6B9D" } ]

/-- What one `Earring` element renders: the procedural fallback geometry,
or the asset-backed GLTF model (wrapped in `Suspense` with the wireframe
loading placeholder while the asset loads). -/
inductive EarringRender where
  | procedural (meshes : List MeshSpec)
  | suspendedModel (path : String)
deriving DecidableEq

/-- The `Earring` wrapper (model-capable overlay, lines 87–109): render
the procedural fallback when `useFallback` is set or `modelPath` is not a
non-empty string; otherwise the asset-backed model under `Suspense`. -/
def earring (modelPath : Option String) (scale : ℚ) (color : String)
    (useFallback : Bool) : EarringRender :=
  if useFallback || !(strTruthy modelPath) then
    EarringRender.procedural (proceduralEarringMeshes scale color)
  else
    EarringRender.suspendedModel (modelPath.getD "")

/-- Optional-chained `selectedJewelry?.modelPath` (line 158). -/
def jewelryModelPath : Option JewelryDescriptor → Option String
  | none => none
  | some j => j.modelPath

/-- Defaulted `selectedJewelry?.scale || 1.5` (line 159). -/
def jewelrySelScale : Option JewelryDescriptor → ℚ
  | none => 3/2
  | some j => if j.scale = 0 then 3/2 else j.scale

/-- Defaulted `selectedJewelry?.color || '#FFD700'` (line 160). -/
def jewelrySelColor : Option JewelryDescriptor → String
  | none => "#FFD700"
  | some j => if j.color = "" then "#FFD700" else j.color

/-- Computed `useFallback = !modelPath || modelError` (line 161). -/
def useFallbackOf (modelError : Bool) (sel : Option JewelryDescriptor) : Bool :=
  !(strTruthy (jewelryModelPath sel)) || modelError

/-- The earring element rendered for a selection given the session's
`modelError` flag (lines 157–212; both earrings share these props). -/
def earringRenderFor (modelError : Bool) (sel : Option JewelryDescriptor) :
    EarringRender :=
  earring (jewelryModelPath sel) (jewelrySelScale sel) (jewelrySelColor sel)
    (useFallbackOf modelError sel)

/-- Session-level happenings that affect provisioning: a jewelry
selection, or the canvas `onError` callback firing (line 180–183). -/
inductive SessionEvent where
  | select (j : JewelryDescriptor)
  | canvasError
deriving DecidableEq

/-- Provisioning-relevant React state: the `modelError` flag (initially
false, set to true by canvas `onError`, never reset) and the currently
selected descriptor. -/
structure ProvisioningState where
  modelError : Bool
  selectedJewelry : Option JewelryDescriptor
deriving DecidableEq

/-- Initial provisioning state (no selection, no recorded error). -/
def initialProvisioning : ProvisioningState :=
  { modelError := false, selectedJewelry := none }

/-- Effect of one session event on provisioning state. -/
def sessionStep (s : ProvisioningState) : SessionEvent → ProvisioningState
  | SessionEvent.select j => { s with selectedJewelry := some j }
  | SessionEvent.canvasError => { s with modelError := true }

/-- Provisioning state after a sequence of session events. -/
def runSession (evs : List SessionEvent) : ProvisioningState :=
  evs.foldl sessionStep initialProvisioning

/-- The earring element rendered in a given provisioning state. -/
def renderedEarring (s : ProvisioningState) : EarringRender :=
  earringRenderFor s.modelError s.selectedJewelry

/-- Whether a render is the procedural fallback. -/
def isProceduralRender : EarringRender → Bool
  | EarringRender.procedural _ => true
  | EarringRender.suspendedModel _ => false

/-- Descriptor 1 of the `JewelrySelector` list. -/
def goldHoops : JewelryDescriptor :=
  { id := 1, name := "Gold Hoops", type := "earrings", color := "#FFD700"
    modelPath := some "/models/gold-hoop-earring.glb", scale := 3/2 }

/-- Descriptor 2 of the `JewelrySelector` list. -/
def silverStuds : JewelryDescriptor :=
  { id := 2, name := "Silver Studs", type := "earrings", color := "#C0C0C0"
    modelPath := some "/models/silver-stud-earring.glb", scale := 6/5 }

/-! ## Theorems -/

/-- C1 (counterexample): a frame whose `landmarks` contain both ears but
whose `face_detected` is `false` leaves the overlay Visible after
processing — the pipeline never consults `face_detected` for visibility,
so such a frame does not clear visibility as the claim states. -/
theorem C1_counterexample :
    (pipelineStep initialAppState initialOverlayState none
      { timestamp := 0
        landmarks := some { left_ear := some ⟨3/10, 2/5, 1/10⟩
                            right_ear := some ⟨7/10, 2/5, 1/10⟩
                            face_rotation := none }
        fps := 30, face_detected := false, error := none }).2.isVisible = true := by
  decide

/-- C1 (amended): for every received `LandmarkFrame` that is not an error
frame (its `error` field absent or empty), after processing, overlay
visibility is Visible if and only if the frame's `landmarks` object is
non-null and contains non-null `left_ear` and `right_ear` entries;
`face_detected` plays no role, and visibility is a function of the most
recent such frame only (the state update below depends only on `f`). -/
theorem C1_visibility_from_latest_frame (a : AppState) (o : OverlayState)
    (vs : Option VideoSize) (f : LandmarkFrame)
    (hferr : strTruthy f.error = false) :
    (pipelineStep a o vs f).2.isVisible = true ↔
      ∃ lm, f.landmarks = some lm ∧ lm.left_ear ≠ none ∧ lm.right_ear ≠ none := by
  unfold pipelineStep onLandmarks overlayUpdate
  rw [hferr]
  cases hlm : f.landmarks with
  | none => simp [hlm]
  | some lm =>
    cases hle : lm.left_ear with
    | none => simp [hle]
    | some le =>
      cases hre : lm.right_ear with
      | none => simp [hle, hre]
      | some re =>
        cases hfr : lm.face_rotation <;> simp [hle, hre, hfr]

/-- C1 (witness). -/
theorem C1_visibility_from_latest_frame_witness :
    (pipelineStep initialAppState initialOverlayState none
      { timestamp := 0
        landmarks := some { left_ear := some ⟨3/10, 2/5, 1/10⟩
                            right_ear := some ⟨7/10, 2/5, 1/10⟩
                            face_rotation := none }
        fps := 30, face_detected := true, error := none }).2.isVisible = true :=
  (C1_visibility_from_latest_frame initialAppState initialOverlayState none
    _ (by decide)).mpr
    ⟨_, rfl, by decide, by decide⟩

/-- C2: on open the attempt counter resets to 0 and the delay to 1000 ms;
on a close with attempts below the maximum of 5, a reconnect is scheduled
after the current delay, the counter is incremented, the delay is doubled
capped at 30000 ms, and no `maxReconnectAttemptsReached` is emitted; once
the cap is reached, `maxReconnectAttemptsReached` is emitted and nothing
further is scheduled (only an explicit `connect()` creates a new socket). -/
theorem C2_reconnect_policy :
    (∀ s : WsCounters,
      (handleOpen s).1.reconnectAttempts = 0 ∧
      (handleOpen s).1.reconnectDelay = 1000 ∧
      (handleOpen s).2 = [WsEvent.connected true]) ∧
    (∀ s : WsCounters, s.reconnectAttempts < maxReconnectAttempts →
      (handleClose s).scheduledReconnectDelay = some s.reconnectDelay ∧
      (handleClose s).state.reconnectDelay = min (s.reconnectDelay * 2) 30000 ∧
      (handleClose s).state.reconnectAttempts = s.reconnectAttempts + 1 ∧
      WsEvent.maxReconnectAttemptsReached true ∉ (handleClose s).emitted) ∧
    (∀ s : WsCounters, maxReconnectAttempts ≤ s.reconnectAttempts →
      (handleClose s).scheduledReconnectDelay = none ∧
      (handleClose s).emitted =
        [WsEvent.connected false, WsEvent.maxReconnectAttemptsReached true]) := by
  refine ⟨fun s => ⟨rfl, rfl, rfl⟩, fun s h => ?_, fun s h => ?_⟩
  · simp [handleClose, h]
  · have hnot : ¬ s.reconnectAttempts < maxReconnectAttempts := not_lt.mpr h
    simp [handleClose, hnot]

/-- C2 (witness). -/
theorem C2_reconnect_policy_witness :
    ((2 : ℕ) < maxReconnectAttempts ∧
      (handleClose ⟨2, 4000⟩).scheduledReconnectDelay = some 4000) ∧
    (maxReconnectAttempts ≤ (5 : ℕ) ∧
      (handleClose ⟨5, 30000⟩).scheduledReconnectDelay = none) :=
  ⟨⟨by decide, (C2_reconnect_policy.2.1 ⟨2, 4000⟩ (by decide)).1⟩,
   ⟨by decide, (C2_reconnect_policy.2.2 ⟨5, 30000⟩ (by decide)).1⟩⟩

/-- C3: in the run where, after the initial `connect()`, no connection
attempt ever opens, exactly six close events occur (the initial attempt's
close plus the closes of the five failed reconnect attempts — the
"five closes in a row"); at that point exactly one
`maxReconnectAttemptsReached` has been emitted, exactly five reconnects
were ever scheduled (no sixth), and the run is quiescent forever after. -/
theorem C3_five_failed_reconnects :
    (runCloses 6).maxEvents = 1 ∧
    (runCloses 6).reconnects = 5 ∧
    (∀ n : ℕ, runCloses (6 + n) = runCloses 6) := by
  refine ⟨by decide, by decide, fun n => ?_⟩
  induction n with
  | zero => rfl
  | succ k ih =>
    have hstep : runCloses (6 + (k + 1)) = closeStep (runCloses (6 + k)) := by
      show closeStep^[6 + k + 1] initialRun = _
      rw [Function.iterate_succ_apply']
      rfl
    rw [hstep, ih]
    decide

/-- C4: the inline coordinate conversion of the overlay effect computes
exactly the spec transform `(-(x*2-1)*aspect, -(y*2-1), z*2)` for both
ears, the aspect defaults to 16/9 when the video size is unknown, and on
the concrete scenario frame (left ear `(0.3, 0.4, 0.1)`, aspect `1.0`) the
left target position is `(0.4, 0.2, 0.2)` and visibility becomes true. -/
theorem C4_coordinate_transform :
    (∀ (p q : LandmarkPoint) (fr : Option FaceRotation) (vs : Option VideoSize)
      (o : OverlayState),
      (overlayUpdate o (some ⟨some p, some q, fr⟩) vs).leftEarPos =
        toRenderSpaceSpec p (aspectOf vs) ∧
      (overlayUpdate o (some ⟨some p, some q, fr⟩) vs).rightEarPos =
        toRenderSpaceSpec q (aspectOf vs)) ∧
    aspectOf none = 16 / 9 ∧
    ((overlayUpdate initialOverlayState
        (some { left_ear := some ⟨3/10, 2/5, 1/10⟩
                right_ear := some ⟨7/10, 2/5, 1/10⟩
                face_rotation := none })
        (some ⟨1, 1⟩)).leftEarPos = ⟨2/5, 1/5, 1/5⟩ ∧
      (overlayUpdate initialOverlayState
        (some { left_ear := some ⟨3/10, 2/5, 1/10⟩
                right_ear := some ⟨7/10, 2/5, 1/10⟩
                face_rotation := none })
        (some ⟨1, 1⟩)).isVisible = true) := by
  refine ⟨fun p q fr vs o => ?_, rfl, ?_, by decide⟩
  · cases vs <;> cases fr <;> exact ⟨rfl, rfl⟩
  · show Vec3.mk _ _ _ = _
    norm_num

/-- C5 (counterexample): a frame whose `error` field is set to the empty
string is *not* treated as an error frame (`if (data.error)` is falsy on
`""`), so processing it does change the stored landmark state, against
the claim that every frame with a set `error` field leaves it unchanged. -/
theorem C5_counterexample :
    (onLandmarks initialAppState
      { timestamp := 0
        landmarks := some { left_ear := some ⟨3/10, 2/5, 1/10⟩
                            right_ear := some ⟨7/10, 2/5, 1/10⟩
                            face_rotation := none }
        fps := 60, face_detected := true, error := some "" }).landmarks ≠
      initialAppState.landmarks := by
  decide

/-- C5 (amended): for every incoming `LandmarkFrame` whose `error` field
is a non-empty string, the stored landmarks, fps, and face-detected state
are left unchanged (rendering continues from the last good pose) and the
error is recorded only in `backendError` as a non-fatal status condition;
a present-but-empty `error` string is treated as error-free by the JS
truthiness test and updates state normally. -/
theorem C5_error_frames_hold_state (s : AppState) (f : LandmarkFrame)
    (herr : strTruthy f.error = true) :
    onLandmarks s f = { s with backendError := f.error } := by
  unfold onLandmarks
  rw [herr]
  rfl

/-- C5 (witness). -/
theorem C5_error_frames_hold_state_witness :
    strTruthy (some "Camera not found") = true ∧
    onLandmarks initialAppState
      { timestamp := 1, landmarks := none, fps := 0, face_detected := false
        error := some "Camera not found" } =
      { initialAppState with backendError := some "Camera not found" } :=
  ⟨by decide,
   C5_error_frames_hold_state initialAppState
     { timestamp := 1, landmarks := none, fps := 0, face_detected := false
       error := some "Camera not found" } (by decide)⟩

/-- C6: across a sequence of frames whose `face_rotation` is present,
then absent, then present again (both ears present throughout), the
rotation state during the absent frame still equals the last present
value `r1` (for arbitrary `r1`, hence not snapped to zero), while the ear
positions are updated from the absent frame's own landmarks and the
overlay stays visible; the third frame resumes with its own rotation. -/
theorem C6_rotation_hold (o : OverlayState) (vs : Option VideoSize)
    (p1 q1 p2 q2 p3 q3 : LandmarkPoint) (r1 r3 : FaceRotation) :
    let o1 := overlayUpdate o (some ⟨some p1, some q1, some r1⟩) vs
    let o2 := overlayUpdate o1 (some ⟨some p2, some q2, none⟩) vs
    let o3 := overlayUpdate o2 (some ⟨some p3, some q3, some r3⟩) vs
    o2.faceRotation = ⟨r1.pitch, r1.yaw, r1.roll⟩ ∧
    o2.leftEarPos = toRenderSpaceSpec p2 (aspectOf vs) ∧
    o2.rightEarPos = toRenderSpaceSpec q2 (aspectOf vs) ∧
    o2.isVisible = true ∧
    o3.faceRotation = ⟨r3.pitch, r3.yaw, r3.roll⟩ := by
  cases vs <;> exact ⟨rfl, rfl, rfl, rfl, rfl⟩

/-- C7: while visible with face rotation `(pitch, yaw, roll)`, the left
earring is rendered with rotation exactly `(pitch/2, yaw/2, roll)` —
damping 0.5 on pitch and yaw, full roll — and the right earring with the
mirrored rotation `(pitch/2, PI + yaw/2, -roll)`, both at their stored
ear positions. -/
theorem C7_rotation_damping_and_mirroring (piConst : ℚ) (lp rp : Vec3)
    (pitch yaw roll : ℚ) :
    renderEarrings piConst
      { leftEarPos := lp, rightEarPos := rp
        faceRotation := ⟨pitch, yaw, roll⟩, isVisible := true } =
      [ { position := lp, rotation := ⟨pitch/2, yaw/2, roll⟩, scale := 3/2 }
      , { position := rp, rotation := ⟨pitch/2, piConst + yaw/2, -roll⟩
          scale := 3/2 } ] := by
  simp only [renderEarrings, if_pos]
  norm_num [mul_one_div]

/-- Once set, the `modelError` flag survives any further session events
(nothing in the component ever resets it). -/
theorem modelError_persists (s : ProvisioningState) (evs : List SessionEvent)
    (h : s.modelError = true) : (evs.foldl sessionStep s).modelError = true := by
  induction evs generalizing s with
  | nil => exact h
  | cons ev rest ih =>
    cases ev with
    | select j => exact ih _ h
    | canvasError => exact ih _ rfl

/-- C8 (counterexample): in the session "select Gold Hoops, canvas error,
select Silver Studs", the code still renders the procedural fallback for
Silver Studs — whose asset path is non-null and whose path never failed —
so the degradation does *not* end when the descriptor changes, against
the claim; absent the error, Silver Studs renders the asset-backed model. -/
theorem C8_counterexample :
    renderedEarring (runSession
        [SessionEvent.select goldHoops, SessionEvent.canvasError,
         SessionEvent.select silverStuds]) =
      EarringRender.procedural
        (proceduralEarringMeshes (6/5) "#C0C0C0") ∧
    silverStuds.modelPath = some "/models/silver-stud-earring.glb" ∧
    renderedEarring (runSession [SessionEvent.select silverStuds]) =
      EarringRender.suspendedModel "/models/silver-stud-earring.glb" := by
  refine ⟨?_, rfl, ?_⟩
  · have h1 : jewelrySelScale (some silverStuds) = 6/5 := by
      norm_num [jewelrySelScale, silverStuds]
    have h2 : jewelrySelColor (some silverStuds) = "#C0C0C0" := by
      simp [jewelrySelColor, silverStuds]
    show earringRenderFor true (some silverStuds) = _
    simp only [earringRenderFor, earring, useFallbackOf, Bool.or_true, Bool.true_or,
      if_true, h1, h2]
  · have hp : strTruthy (some "/models/silver-stud-earring.glb") = true := by decide
    show earringRenderFor false (some silverStuds) = _
    simp only [earringRenderFor, earring, useFallbackOf, jewelryModelPath]
    rw [show silverStuds.modelPath = some "/models/silver-stud-earring.glb" from rfl]
    rw [hp]
    rfl

/-- C8 (amended): the procedural fallback is rendered exactly when the
session's `modelError` flag is set or the selected descriptor's asset
path is null/empty; in that case the render is the torus hoop plus sphere
accent, hoop colored per the descriptor's color and scaled by its scale
(with the source's `||` defaults); and the recorded failure is a single
session-global flag — once an error is observed, every later state of the
session (any further selections included) renders the fallback, i.e. the
degradation is permanent for the session and persists across descriptor
changes rather than ending when the descriptor changes. -/
theorem C8_session_global_fallback :
    (∀ (me : Bool) (sel : Option JewelryDescriptor),
      isProceduralRender (earringRenderFor me sel) =
        (me || !(strTruthy (jewelryModelPath sel)))) ∧
    (∀ (me : Bool) (sel : Option JewelryDescriptor),
      (me || !(strTruthy (jewelryModelPath sel))) = true →
      earringRenderFor me sel =
        EarringRender.procedural
          (proceduralEarringMeshes (jewelrySelScale sel) (jewelrySelColor sel))) ∧
    (∀ (evs more : List SessionEvent),
      (runSession evs).modelError = true →
      isProceduralRender (renderedEarring (runSession (evs ++ more))) = true) := by
  have hcond : ∀ (me : Bool) (sel : Option JewelryDescriptor),
      (useFallbackOf me sel || !(strTruthy (jewelryModelPath sel))) =
        (me || !(strTruthy (jewelryModelPath sel))) := by
    intro me sel
    unfold useFallbackOf
    cases me <;> cases strTruthy (jewelryModelPath sel) <;> rfl
  have hrender : ∀ (me : Bool) (sel : Option JewelryDescriptor),
      (me || !(strTruthy (jewelryModelPath sel))) = true →
      earringRenderFor me sel =
        EarringRender.procedural
          (proceduralEarringMeshes (jewelrySelScale sel) (jewelrySelColor sel)) := by
    intro me sel h
    unfold earringRenderFor earring
    rw [hcond me sel, h]
    rfl
  refine ⟨fun me sel => ?_, hrender, fun evs more hme => ?_⟩
  · unfold earringRenderFor earring
    rw [hcond me sel]
    cases h : (me || !(strTruthy (jewelryModelPath sel))) <;> simp [h, isProceduralRender]
  · have hme2 : (runSession (evs ++ more)).modelError = true := by
      unfold runSession at hme ⊢
      rw [List.foldl_append]
      exact modelError_persists _ more hme
    rw [renderedEarring,
      hrender _ _ (by rw [hme2]; rfl)]
    rfl

/-- C8 (witness). -/
theorem C8_session_global_fallback_witness :
    (runSession [SessionEvent.canvasError]).modelError = true ∧
    isProceduralRender (renderedEarring (runSession
      ([SessionEvent.canvasError] ++ [SessionEvent.select goldHoops]))) = true :=
  ⟨rfl, C8_session_global_fallback.2.2 [SessionEvent.canvasError]
    [SessionEvent.select goldHoops] rfl⟩

/-- C9: a malformed inbound payload produces no event at all (the JS
handler only logs it): within any message sequence it contributes
nothing, subsequent messages are still processed, and a parsed frame is
emitted as a `landmarks` event.  Message handling has no access to the
socket or the reconnect counters (its type is event-only), so it can
neither close the connection nor count as a connection failure. -/
theorem C9_malformed_frames_skipped :
    handleMessage RawMsg.malformed = [] ∧
    (∀ pre post : List RawMsg,
      processMessages (pre ++ RawMsg.malformed :: post) =
        processMessages pre ++ processMessages post) ∧
    (∀ f : LandmarkFrame, handleMessage (RawMsg.ok f) = [WsEvent.landmarks f]) := by
  refine ⟨rfl, fun pre post => ?_, fun f => rfl⟩
  unfold processMessages
  simp [handleMessage]

/-- C10: calling `disconnect()` on an open client (any attempt counter
`a` and delay `d`) sets the attempt counter to the maximum of 5 and drops
the socket; when the underlying socket's close event then runs the close
handler, it schedules no reconnect but still emits `connected(false)`
followed by `maxReconnectAttemptsReached(true)`, even though the close
was explicit and no retries were exhausted. -/
theorem C10_disconnect_emits_max_reached (a d : ℕ) :
    (disconnectClient { wsOpen := true, counters := ⟨a, d⟩ }).counters.reconnectAttempts =
      maxReconnectAttempts ∧
    (disconnectClient { wsOpen := true, counters := ⟨a, d⟩ }).wsOpen = false ∧
    (handleClose (disconnectClient { wsOpen := true, counters := ⟨a, d⟩ }).counters).emitted =
      [WsEvent.connected false, WsEvent.maxReconnectAttemptsReached true] ∧
    (handleClose
        (disconnectClient { wsOpen := true, counters := ⟨a, d⟩ }).counters).scheduledReconnectDelay =
      none := by
  refine ⟨rfl, rfl, ?_, ?_⟩ <;>
    simp [disconnectClient, handleClose, maxReconnectAttempts]

end JewelryAR
